import Mathlib

/-!
Shallow embedding of `src/gitcheckpoints.py`: class `GitCheckpoints`, a
Jupyter checkpoints backend that drives git through `subprocess.check_output`.

The external world (the git binary acting on a working tree, plus the wall
clock, `dateutil.parser.parse` and the inherited `FileCheckpoints` fallback)
is abstracted as fields of the `GitCheckpoints` structure over an abstract
world-state type `σ`.  Every method is translated to a pure function that
threads the world state explicitly and additionally records the list of git
commands it issued (its trace), so that frame properties ("no command was
issued", "no commit was made") are statable.
-/

/-! ### Python string helpers, implemented structurally so they reduce -/

/-- Helper for `pySplitWs`, walking the character list with an accumulator. -/
def splitWsAux : List Char → List Char → List String
  | [], acc => if acc.isEmpty then [] else [String.mk acc.reverse]
  | c :: cs, acc =>
    if c.isWhitespace then
      if acc.isEmpty then splitWsAux cs []
      else String.mk acc.reverse :: splitWsAux cs []
    else splitWsAux cs (c :: acc)

/-- Python `str.split()` with no argument: split on runs of whitespace,
dropping empty fields. -/
def pySplitWs (s : String) : List String := splitWsAux s.toList []

/-- Python `str.rstrip()`: drop trailing whitespace. -/
def pyRstrip (s : String) : String :=
  String.mk (s.toList.reverse.dropWhile Char.isWhitespace).reverse

/-- Python `str.strip()`: drop leading and trailing whitespace. -/
def pyStrip (s : String) : String :=
  String.mk (((s.toList.dropWhile Char.isWhitespace).reverse.dropWhile
    Char.isWhitespace).reverse)

/-- Helper for `splitChar`, walking the character list with an accumulator. -/
def splitCharAux (sep : Char) : List Char → List Char → List String
  | [], acc => [String.mk acc.reverse]
  | c :: cs, acc =>
    if c = sep then String.mk acc.reverse :: splitCharAux sep cs []
    else splitCharAux sep cs (c :: acc)

/-- Python `str.split(sep)` for a one-character separator (keeps empty
fields); `splitChar s sep` is never the empty list. -/
def splitChar (s : String) (sep : Char) : List String := splitCharAux sep s.toList []

/-- Python `path.rsplit('/', 1)[-1]`: the final path component. -/
def pyBasename (path : String) : String := (splitChar path '/').getLastD path

/-- Python `os.path.split` (posixpath): cut after the last `/`; the head
keeps a root of slashes but otherwise loses trailing slashes. -/
def osPathSplit (p : String) : String × String :=
  if p.toList.contains '/' then
    let parts := splitChar p '/'
    let head := String.intercalate "/" parts.dropLast ++ "/"
    let tail := parts.getLastD ""
    (if head.toList.any (fun c => c ≠ '/') then
        String.mk ((head.toList.reverse.dropWhile (fun c => c = '/')).reverse)
      else head, tail)
  else ("", p)

/-! ### Data model -/

/-- Timestamps (`datetime` values); kept abstract as an integer instant. -/
structure Timestamp where
  utc : Int
deriving DecidableEq, Repr

/-- The dictionary `dict(id=..., last_modified=...)` that every checkpoint
API call returns. -/
structure CheckpointRecord where
  id : String
  last_modified : Timestamp
deriving DecidableEq, Repr

/-- One invocation of the git binary: the full argument vector (starting
with `"git"`) and the working directory it runs in. -/
structure GitCmd where
  argv : List String
  cwd : String
deriving DecidableEq, Repr

/-- A nonzero exit of the git subprocess (`subprocess.CalledProcessError`). -/
structure GitFail where
  returncode : Int
deriving DecidableEq, Repr

/-- The Python exceptions this code can raise or mentions.
`unboundLocal` is `UnboundLocalError`: in `_git`, the
`except CalledProcessError` handler logs the variable `out`, which is
unbound when `check_output` raised, so the handler itself raises
`UnboundLocalError` before reaching its re-`raise`.  `runtime` is
`RuntimeError`, `indexError` is `IndexError` (from `[0]` on an empty list),
`calledProcessError` is `CalledProcessError` escaping some call, and
`notFound` stands for the HTTP 404 error of the spec's taxonomy, which this
code never constructs. -/
inductive Err where
  | calledProcessError (returncode : Int)
  | unboundLocal
  | runtime (msg : String)
  | indexError
  | notFound
deriving DecidableEq, Repr

/-- The `GitCheckpoints` class together with its external collaborators,
over an abstract world state `σ`.  Field order: `max_checkpoints`
(source default 5), `create_commits` (source default true), `root_dir`,
`get_os_path` (the contents-manager path translation `_get_os_path`),
`check_output` (the git subprocess: consumes a world state and a command,
yields output text and the new world state, or fails), `utcnow` (the wall
clock read off the world state), `parse_date` (`dateutil.parser.parse`),
`super_create` (the inherited `FileCheckpoints.create_checkpoint`, which
copies the file without touching git). -/
structure GitCheckpoints (σ : Type) where
  max_checkpoints : Int
  create_commits : Bool
  root_dir : String
  get_os_path : String → String
  check_output : σ → GitCmd → Except GitFail (String × σ)
  utcnow : σ → Timestamp
  parse_date : String → Timestamp
  super_create : σ → String → CheckpointRecord × σ

/-- Python `args.split()` applied when `_git` receives a string. -/
def strArgs (s : String) : List String := pySplitWs s

/-- The command `_git` builds: `['git'] + args`, plus the file's base name
when `path` is given and `include_file` holds; the working directory is the
parent of the translated path (or `root_dir` when no path is given). -/
def builtCmd {σ : Type} (A : GitCheckpoints σ) (args : List String)
    (path : Option String) (include_file : Bool) : GitCmd :=
  match path with
  | none => ⟨"git" :: args, A.root_dir⟩
  | some p =>
    let os_path := A.get_os_path p
    let pn := osPathSplit os_path
    ⟨"git" :: (if include_file then args ++ [pn.2] else args), pn.1⟩

/-- Model of `GitCheckpoints._git`: run a git command, decode and `rstrip` its
output.  On a nonzero exit, the `except CalledProcessError` handler logs
the unbound local `out`, so the original failure is replaced by an
`UnboundLocalError` (`Err.unboundLocal`) and the handler's re-`raise` is
never reached; the failed command leaves the world state unchanged. -/
def GitCheckpoints.git {σ : Type} (A : GitCheckpoints σ) (s : σ)
    (args : List String) (path : Option String) (include_file : Bool) :
    Except Err String × σ × List GitCmd :=
  match A.check_output s (builtCmd A args path include_file) with
  | .ok (out, s') => (.ok (pyRstrip out), s', [builtCmd A args path include_file])
  | .error _ => (.error Err.unboundLocal, s, [builtCmd A args path include_file])

/-- Model of `GitCheckpoints._in_git`: probe `git log -1 --oneline` on the file,
catching only `CalledProcessError` (which `_git` as written never lets
through) as `false`; any other exception propagates. -/
def GitCheckpoints.in_git {σ : Type} (A : GitCheckpoints σ) (s : σ)
    (path : String) : Except Err Bool × σ × List GitCmd :=
  match A.git s (strArgs "log -1 --oneline") (some path) true with
  | (.ok _, s', t) => (.ok true, s', t)
  | (.error (Err.calledProcessError _), s', t) => (.ok false, s', t)
  | (.error e, s', t) => (.error e, s', t)

/-- Model of `GitCheckpoints.checkpoint_model`: the sentinel id `"--"` is answered
with the current time and no git query; any other id is resolved through
`git log -1 --date=iso --format=%ad <id>` and the date parsed. -/
def GitCheckpoints.checkpoint_model {σ : Type} (A : GitCheckpoints σ) (s : σ)
    (checkpoint_id path : String) :
    Except Err CheckpointRecord × σ × List GitCmd :=
  if checkpoint_id = "--" then
    (.ok ⟨checkpoint_id, A.utcnow s⟩, s, [])
  else
    match A.git s ["log", "-1", "--date=iso", "--format=%ad", checkpoint_id]
        (some path) false with
    | (.ok out, s', t) => (.ok ⟨checkpoint_id, A.parse_date out⟩, s', t)
    | (.error e, s', t) => (.error e, s', t)

/-- The list comprehension in `list_checkpoints`: map `checkpoint_model`
over the ids, threading the world state, stopping at the first failure. -/
def GitCheckpoints.models {σ : Type} (A : GitCheckpoints σ) (path : String) :
    List String → σ → Except Err (List CheckpointRecord) × σ × List GitCmd
  | [], s => (.ok [], s, [])
  | cid :: rest, s =>
    match A.checkpoint_model s cid path with
    | (.ok r, s1, t1) =>
      match A.models path rest s1 with
      | (.ok rs, s2, t2) => (.ok (r :: rs), s2, t1 ++ t2)
      | (.error e, s2, t2) => (.error e, s2, t1 ++ t2)
    | (.error e, s1, t1) => (.error e, s1, t1)

/-- The effective limit `limit or self.max_checkpoints`: `None` and `0`
are falsy in Python, so both fall back to `max_checkpoints`. -/
def GitCheckpoints.effLimit {σ : Type} (A : GitCheckpoints σ)
    (limit : Option Int) : Int :=
  match limit with
  | none => A.max_checkpoints
  | some l => if l = 0 then A.max_checkpoints else l

/-- Model of `GitCheckpoints.list_checkpoints`: hashes from
`git log --format=%H -<limit>`, split on whitespace; in staging-only mode
(`create_commits` false) the sentinel `"--"` is inserted at position 0 when
`git status -s` on the file prints anything; each id is then resolved by
`checkpoint_model`. -/
def GitCheckpoints.list_checkpoints {σ : Type} (A : GitCheckpoints σ) (s : σ)
    (path : String) (limit : Option Int) :
    Except Err (List CheckpointRecord) × σ × List GitCmd :=
  match A.git s ["log", "--format=%H", "-" ++ toString (A.effLimit limit)]
      (some path) true with
  | (.error e, s1, t1) => (.error e, s1, t1)
  | (.ok out, s1, t1) =>
    if A.create_commits = false then
      match A.git s1 ["status", "-s"] (some path) true with
      | (.error e, s2, t2) => (.error e, s2, t1 ++ t2)
      | (.ok st, s2, t2) =>
        match A.models path
            (if pyStrip st ≠ "" then "--" :: pySplitWs out else pySplitWs out)
            s2 with
        | (.ok rs, s3, t3) => (.ok rs, s3, t1 ++ t2 ++ t3)
        | (.error e, s3, t3) => (.error e, s3, t1 ++ t2 ++ t3)
    else
      match A.models path (pySplitWs out) s1 with
      | (.ok rs, s2, t2) => (.ok rs, s2, t1 ++ t2)
      | (.error e, s2, t2) => (.error e, s2, t1 ++ t2)

/-- Model of `GitCheckpoints.create_checkpoint`: fall back to `super()` when the
probe reports untracked; return the `HEAD` record when `git diff` on the
file is blank; otherwise `git add`, then either the sentinel record
(staging-only mode) or `git commit -m 'notebook checkpoint <basename>' -o`
followed by `list_checkpoints(path, limit=1)[0]`. -/
def GitCheckpoints.create_checkpoint {σ : Type} (A : GitCheckpoints σ)
    (s : σ) (path : String) :
    Except Err CheckpointRecord × σ × List GitCmd :=
  match A.in_git s path with
  | (.error e, s1, t1) => (.error e, s1, t1)
  | (.ok false, s1, t1) =>
    ((.ok (A.super_create s1 path).1), (A.super_create s1 path).2, t1)
  | (.ok true, s1, t1) =>
    match A.git s1 (strArgs "diff") (some path) true with
    | (.error e, s2, t2) => (.error e, s2, t1 ++ t2)
    | (.ok diff, s2, t2) =>
      if pyStrip diff = "" then
        match A.checkpoint_model s2 "HEAD" path with
        | (r, s3, t3) => (r, s3, t1 ++ t2 ++ t3)
      else
        match A.git s2 (strArgs "add") (some path) true with
        | (.error e, s3, t3) => (.error e, s3, t1 ++ t2 ++ t3)
        | (.ok _, s3, t3) =>
          if A.create_commits = false then
            match A.checkpoint_model s3 "--" path with
            | (r, s4, t4) => (r, s4, t1 ++ t2 ++ t3 ++ t4)
          else
            match A.git s3
                ["commit", "-m", "notebook checkpoint " ++ pyBasename path, "-o"]
                (some path) true with
            | (.error e, s4, t4) => (.error e, s4, t1 ++ t2 ++ t3 ++ t4)
            | (.ok _, s4, t4) =>
              match A.list_checkpoints s4 path (some 1) with
              | (.error e, s5, t5) => (.error e, s5, t1 ++ t2 ++ t3 ++ t4 ++ t5)
              | (.ok rs, s5, t5) =>
                match rs with
                | [] => (.error Err.indexError, s5, t1 ++ t2 ++ t3 ++ t4 ++ t5)
                | r :: _ => (.ok r, s5, t1 ++ t2 ++ t3 ++ t4 ++ t5)

/-- Model of `GitCheckpoints.restore_checkpoint`: `git checkout <id> <file>`. -/
def GitCheckpoints.restore_checkpoint {σ : Type} (A : GitCheckpoints σ)
    (s : σ) (checkpoint_id path : String) :
    Except Err String × σ × List GitCmd :=
  A.git s ["checkout", checkpoint_id] (some path) true

/-- Model of `GitCheckpoints.rename_checkpoint`: `git rm` on the translated old
path (which `_git` translates a second time); `new_path` is ignored. -/
def GitCheckpoints.rename_checkpoint {σ : Type} (A : GitCheckpoints σ)
    (s : σ) (checkpoint_id : Option String) (old_path new_path : String) :
    Except Err String × σ × List GitCmd :=
  A.git s ["rm"] (some (A.get_os_path old_path)) true

/-- Model of `GitCheckpoints.delete_checkpoint`: unconditionally raise
`RuntimeError("I'm not going to delete git commits")` — the spec's
`Forbidden` — issuing no command and leaving the world state untouched. -/
def GitCheckpoints.delete_checkpoint {σ : Type} (A : GitCheckpoints σ)
    (s : σ) (checkpoint_id path : String) :
    Except Err Unit × σ × List GitCmd :=
  (.error (Err.runtime "I'm not going to delete git commits"), s, [])

/-- Model of `GitCheckpoints.rename_all_checkpoints`: delegates to
`rename_checkpoint(None, old_path, new_path)`. -/
def GitCheckpoints.rename_all_checkpoints {σ : Type} (A : GitCheckpoints σ)
    (s : σ) (old_path new_path : String) :
    Except Err String × σ × List GitCmd :=
  A.rename_checkpoint s none old_path new_path

/-- A world in which every git invocation exits nonzero (for example a file
outside any git repository, where even `git log -1 --oneline` fails). -/
def failEnv : Unit → GitCmd → Except GitFail (String × Unit) := fun _ _ =>
  .error ⟨128⟩

/-- A `GitCheckpoints` store (source defaults: `max_checkpoints = 5`,
`create_commits = true`) living in `failEnv`; its inherited fallback would
produce the record `⟨"fallback-copy", ⟨9⟩⟩`. -/
def failA : GitCheckpoints Unit :=
  ⟨5, true, "", fun p => p, failEnv, fun _ => ⟨0⟩, fun _ => ⟨0⟩,
    fun s _ => (⟨"fallback-copy", ⟨9⟩⟩, s)⟩

/-- A staging-only world: the file has one commit (hash `"aaaa"`), staged
changes (`git status -s` prints a line), and commit dates parse to
timestamp 50; the wall clock reads 100. -/
def stagingEnv : Unit → GitCmd → Except GitFail (String × Unit) := fun _ c =>
  match c.argv.getD 1 "" with
  | "status" => .ok (" M f.ipynb", ())
  | "log" =>
    if c.argv.getD 2 "" = "--format=%H" then .ok ("aaaa", ())
    else .ok ("2021-01-01 00:00:00 +0000", ())
  | _ => .ok ("", ())

/-- A staging-only store (`create_commits = false`) with
`max_checkpoints = 1` living in `stagingEnv`. -/
def stagingCexA : GitCheckpoints Unit :=
  ⟨1, false, "", fun p => p, stagingEnv, fun _ => ⟨100⟩, fun _ => ⟨50⟩,
    fun s _ => (⟨"fallback-copy", ⟨9⟩⟩, s)⟩

/-- A durable-mode world with a phase counter: in phase 0 the file has an
unstaged change (`git diff` prints a hunk) on top of commit `"deadbeef"`;
`git commit` advances the phase, after which `git diff` is empty.  All
commit dates parse to timestamp 42. -/
def commitEnv : Nat → GitCmd → Except GitFail (String × Nat) := fun s c =>
  match c.argv.getD 1 "" with
  | "diff" => .ok (if s = 0 then "+ x" else "", s)
  | "add" => .ok ("", s)
  | "commit" => .ok ("", s + 1)
  | "status" => .ok ("", s)
  | "log" =>
    if c.argv.getD 2 "" = "--format=%H" then .ok ("deadbeef", s)
    else .ok ("2021-02-03 04:05:06 +0000", s)
  | _ => .error ⟨1⟩

/-- A durable-commit store (source defaults) living in `commitEnv`. -/
def commitCexA : GitCheckpoints Nat :=
  ⟨5, true, "", fun p => p, commitEnv, fun _ => ⟨77⟩, fun _ => ⟨42⟩,
    fun s _ => (⟨"fallback-copy", ⟨9⟩⟩, s)⟩

/-- A staging-only world where the file is tracked and has an unstaged
change: `git diff` prints a hunk, everything else succeeds quietly. -/
def dirtyEnv : Unit → GitCmd → Except GitFail (String × Unit) := fun _ c =>
  match c.argv.getD 1 "" with
  | "diff" => .ok ("+ x", ())
  | _ => .ok ("", ())

/-- A staging-only store (`create_commits = false`) living in `dirtyEnv`;
the wall clock reads 100. -/
def dirtyA : GitCheckpoints Unit :=
  ⟨5, false, "", fun p => p, dirtyEnv, fun _ => ⟨100⟩, fun _ => ⟨50⟩,
    fun s _ => (⟨"fallback-copy", ⟨9⟩⟩, s)⟩

/-- A durable-mode world holding a full page: with `max_checkpoints = 2`,
`git log --format=%H -2` prints exactly two hashes, newest first; commit
dates parse to timestamp 50. -/
def pageEnv : Unit → GitCmd → Except GitFail (String × Unit) := fun _ c =>
  match c.argv.getD 1 "" with
  | "log" =>
    if c.argv.getD 2 "" = "--format=%H" then .ok ("h1 h2", ())
    else .ok ("2021-01-01 00:00:00 +0000", ())
  | _ => .ok ("", ())

/-- A durable-commit store with `max_checkpoints = 2` living in `pageEnv`. -/
def pageA : GitCheckpoints Unit :=
  ⟨2, true, "", fun p => p, pageEnv, fun _ => ⟨100⟩, fun _ => ⟨50⟩,
    fun s _ => (⟨"fallback-copy", ⟨9⟩⟩, s)⟩

theorem git_trace {σ : Type} (A : GitCheckpoints σ) (s : σ) (args : List String)
    (path : Option String) (include_file : Bool) :
    (A.git s args path include_file).2.2 = [builtCmd A args path include_file] := by
  unfold GitCheckpoints.git
  cases h : A.check_output s (builtCmd A args path include_file) with
  | ok v => rfl
  | error e => rfl

theorem git_error_unbound {σ : Type} (A : GitCheckpoints σ) (s : σ) (args : List String)
    (path : Option String) (include_file : Bool) (e : Err)
    (h : (A.git s args path include_file).1 = .error e) : e = Err.unboundLocal := by
  unfold GitCheckpoints.git at h
  cases hc : A.check_output s (builtCmd A args path include_file) with
  | ok v => rw [hc] at h; simp at h
  | error f => rw [hc] at h; simp at h; exact h.symm

theorem checkpoint_model_ok_id {σ : Type} (A : GitCheckpoints σ) (s : σ)
    (cid path : String) (r : CheckpointRecord) (s' : σ) (t : List GitCmd)
    (h : A.checkpoint_model s cid path = (.ok r, s', t)) : r.id = cid := by
  unfold GitCheckpoints.checkpoint_model at h
  split at h
  · simp only [Prod.mk.injEq, Except.ok.injEq] at h
    rw [← h.1]
  · split at h
    · simp only [Prod.mk.injEq, Except.ok.injEq] at h
      rw [← h.1]
    · simp only [Prod.mk.injEq] at h
      exact absurd h.1 (by simp)

theorem models_ok_ids {σ : Type} (A : GitCheckpoints σ) (path : String) :
    ∀ (ids : List String) (s : σ) (l : List CheckpointRecord) (s' : σ) (t : List GitCmd),
      A.models path ids s = (.ok l, s', t) → l.map CheckpointRecord.id = ids := by
  intro ids
  induction ids with
  | nil =>
    intro s l s' t h
    unfold GitCheckpoints.models at h
    simp only [Prod.mk.injEq, Except.ok.injEq] at h
    rw [← h.1]; rfl
  | cons cid rest ih =>
    intro s l s' t h
    unfold GitCheckpoints.models at h
    rcases hm : A.checkpoint_model s cid path with ⟨er, s1, t1⟩
    rw [hm] at h
    cases er with
    | error e => dsimp only at h; simp only [Prod.mk.injEq] at h; exact absurd h.1 (by simp)
    | ok r =>
      dsimp only at h
      rcases hms : A.models path rest s1 with ⟨ers, s2, t2⟩
      rw [hms] at h
      cases ers with
      | error e => simp only [Prod.mk.injEq] at h; exact absurd h.1 (by simp)
      | ok rs =>
        simp only [Prod.mk.injEq, Except.ok.injEq] at h
        rw [← h.1]
        simp only [List.map_cons]
        rw [checkpoint_model_ok_id A s cid path r s1 t1 hm, ih s1 rs s2 t2 hms]

theorem git_eta {σ : Type} (A : GitCheckpoints σ) (s : σ) (args : List String)
    (path : Option String) (include_file : Bool) :
    A.git s args path include_file
      = ((A.git s args path include_file).1, (A.git s args path include_file).2.1,
        [builtCmd A args path include_file]) := by
  rw [← git_trace]

/-- C2: `delete_checkpoint` always fails with the unconditional
`RuntimeError` (the spec's `Forbidden`), leaves the world state unchanged
and issues no git command. -/
theorem C2_delete_checkpoint_forbidden {σ : Type} (A : GitCheckpoints σ) (s : σ)
    (checkpoint_id path : String) :
    A.delete_checkpoint s checkpoint_id path
      = (.error (Err.runtime "I'm not going to delete git commits"), s, []) := rfl

/-- C9: `rename_checkpoint` issues exactly one `git rm` on the translated
old path — no commit, hence no new snapshot — its behaviour does not depend
on `new_path` in any way, and `rename_all_checkpoints` delegates to it. -/
theorem C9_rename_frame {σ : Type} (A : GitCheckpoints σ) (s : σ)
    (checkpoint_id : Option String) (old_path new_path new_path2 : String) :
    A.rename_checkpoint s checkpoint_id old_path new_path
      = A.rename_checkpoint s checkpoint_id old_path new_path2
    ∧ (A.rename_checkpoint s checkpoint_id old_path new_path).2.2
      = [⟨["git", "rm", (osPathSplit (A.get_os_path (A.get_os_path old_path))).2],
          (osPathSplit (A.get_os_path (A.get_os_path old_path))).1⟩]
    ∧ (∀ c ∈ (A.rename_checkpoint s checkpoint_id old_path new_path).2.2,
        c.argv.getD 1 "" ≠ "commit")
    ∧ A.rename_all_checkpoints s old_path new_path
      = A.rename_checkpoint s none old_path new_path := by
  refine ⟨rfl, ?_, ?_, rfl⟩
  · show (A.git s ["rm"] (some (A.get_os_path old_path)) true).2.2 = _
    rw [git_trace]
    rfl
  · show ∀ c ∈ (A.git s ["rm"] (some (A.get_os_path old_path)) true).2.2, _
    rw [git_trace]
    intro c hc
    simp only [List.mem_singleton] at hc
    subst hc
    show ("rm" : String) ≠ "commit"
    decide

/-- C10: a falsy `limit` (`None`, or `0`) silently falls back to
`max_checkpoints`: the call with limit 0 behaves exactly like the call with
no limit, and the log command issued asks git for `max_checkpoints`
entries. -/
theorem C10_falsy_limit {σ : Type} (A : GitCheckpoints σ) (s : σ) (path : String) :
    A.list_checkpoints s path (some 0) = A.list_checkpoints s path none
    ∧ (A.list_checkpoints s path none).2.2.getD 0 ⟨[], ""⟩
      = builtCmd A ["log", "--format=%H", "-" ++ toString A.max_checkpoints]
          (some path) true := by
  constructor
  · rfl
  · have hL : A.effLimit none = A.max_checkpoints := rfl
    unfold GitCheckpoints.list_checkpoints
    rw [hL]
    rcases hg : A.git s ["log", "--format=%H", "-" ++ toString A.max_checkpoints]
        (some path) true with ⟨er, s1, t1⟩
    have ht : t1 = [builtCmd A ["log", "--format=%H",
        "-" ++ toString A.max_checkpoints] (some path) true] := by
      have h2 := git_trace A s ["log", "--format=%H",
        "-" ++ toString A.max_checkpoints] (some path) true
      rw [hg] at h2
      exact h2
    subst ht
    cases er with
    | error e => rfl
    | ok out =>
      dsimp only
      split
      · rcases hst : A.git s1 ["status", "-s"] (some path) true with ⟨er2, s2, t2⟩
        cases er2 with
        | error e => rfl
        | ok st =>
          dsimp only
          rcases hm : A.models path
              (if pyStrip st ≠ "" then "--" :: pySplitWs out else pySplitWs out)
              s2 with ⟨er3, s3, t3⟩
          cases er3 <;> rfl
      · rcases hm : A.models path (pySplitWs out) s1 with ⟨er3, s2, t2⟩
        cases er3 <;> rfl

/-- C4: the tracking probe is not total: when the underlying `git log`
fails, `_git`'s failure handler raises `UnboundLocalError` (it logs the
unbound local `out`), which `_in_git` does not catch, so the probe raises
instead of returning `false`. -/
theorem C4_in_git_raises :
    failA.in_git () "notes.ipynb"
      = (.error Err.unboundLocal, (),
        [⟨["git", "log", "-1", "--oneline", "notes.ipynb"], ""⟩]) := rfl

/-- C8: for an untracked path the probe failure surfaces as an
`UnboundLocalError` escaping `create_checkpoint`, so the fallback store is
never reached and its record is not returned. -/
theorem C8_untracked_raises_instead_of_fallback :
    failA.create_checkpoint () "notes.ipynb"
      = (.error Err.unboundLocal, (),
        [⟨["git", "log", "-1", "--oneline", "notes.ipynb"], ""⟩])
    ∧ (failA.create_checkpoint () "notes.ipynb").1
      ≠ .ok (failA.super_create () "notes.ipynb").1 :=
  ⟨rfl, fun h => nomatch h⟩

/-- C6 counterexample: when an id does not resolve, `checkpoint_model`
fails with the propagated `UnboundLocalError`, not with `NotFound`. -/
theorem C6_cex_error_is_not_notfound :
    (failA.checkpoint_model () "deadbeef" "f.ipynb").1 = .error Err.unboundLocal
    ∧ Err.unboundLocal ≠ Err.notFound :=
  ⟨rfl, by decide⟩

/-- C1 counterexample: with `max_checkpoints = 1` and no explicit limit, a
staging-only store with one commit and staged changes returns two records
(the sentinel is prepended to the full page of hashes), so the length bound
`max_checkpoints` is exceeded. -/
theorem C1_cex_staging_exceeds_limit :
    (stagingCexA.list_checkpoints () "f.ipynb" none).1
      = .ok [⟨"--", ⟨100⟩⟩, ⟨"aaaa", ⟨50⟩⟩]
    ∧ stagingCexA.max_checkpoints = 1
    ∧ ¬ ([(⟨"--", ⟨100⟩⟩ : CheckpointRecord), ⟨"aaaa", ⟨50⟩⟩].length ≤ 1) :=
  ⟨rfl, rfl, by decide⟩

/-- C3 counterexample: a first `create_checkpoint` that commits returns the
record with the commit hash id, while the immediately following call — with
no intervening content change, as witnessed by the empty diff — returns the
record with the symbolic id `"HEAD"`; the two records differ. -/
theorem C3_cex_second_call_differs :
    (commitCexA.create_checkpoint 0 "f.ipynb").1 = .ok ⟨"deadbeef", ⟨42⟩⟩
    ∧ (commitCexA.create_checkpoint 0 "f.ipynb").2.1 = 1
    ∧ (commitCexA.git 1 (strArgs "diff") (some "f.ipynb") true).1 = .ok ""
    ∧ (commitCexA.create_checkpoint 1 "f.ipynb").1 = .ok ⟨"HEAD", ⟨42⟩⟩
    ∧ (⟨"deadbeef", ⟨42⟩⟩ : CheckpointRecord) ≠ ⟨"HEAD", ⟨42⟩⟩ :=
  ⟨rfl, rfl, rfl, rfl, by decide⟩

/-- C6 amended: `checkpoint_model` synthesizes the sentinel record from the
current time with no git query; any other id is resolved through one
metadata query, yielding a record with exactly that id and the parsed date;
and when the id does not resolve the underlying failure propagates (as the
handler's `UnboundLocalError`), never as `NotFound`. -/
theorem C6_checkpoint_model_amended {σ : Type} (A : GitCheckpoints σ) (s : σ)
    (path cid : String) :
    A.checkpoint_model s "--" path = (.ok ⟨"--", A.utcnow s⟩, s, [])
    ∧ (∀ o s' t, cid ≠ "--" →
        A.git s ["log", "-1", "--date=iso", "--format=%ad", cid] (some path) false
          = (.ok o, s', t) →
        A.checkpoint_model s cid path = (.ok ⟨cid, A.parse_date o⟩, s', t))
    ∧ (∀ e s' t, cid ≠ "--" →
        A.git s ["log", "-1", "--date=iso", "--format=%ad", cid] (some path) false
          = (.error e, s', t) →
        A.checkpoint_model s cid path = (.error e, s', t) ∧ e ≠ Err.notFound) := by
  refine ⟨?_, ?_, ?_⟩
  · unfold GitCheckpoints.checkpoint_model
    rw [if_pos rfl]
  · intro o s' t hne hgit
    unfold GitCheckpoints.checkpoint_model
    rw [if_neg hne, hgit]
  · intro e s' t hne hgit
    have he : e = Err.unboundLocal :=
      git_error_unbound A s ["log", "-1", "--date=iso", "--format=%ad", cid]
        (some path) false e (by rw [hgit])
    subst he
    refine ⟨?_, by decide⟩
    unfold GitCheckpoints.checkpoint_model
    rw [if_neg hne, hgit]

/-- C6 witness: in the `stagingEnv` world the hash `"aaaa"` resolves to a
record with that id and the parsed commit date, and in the all-failing
world an unresolvable id propagates a non-`NotFound` error. -/
theorem C6_checkpoint_model_witness :
    stagingCexA.checkpoint_model () "aaaa" "f.ipynb"
      = (.ok ⟨"aaaa", ⟨50⟩⟩, (),
        [⟨["git", "log", "-1", "--date=iso", "--format=%ad", "aaaa"], ""⟩])
    ∧ failA.checkpoint_model () "deadbeef" "f.ipynb"
      = (.error Err.unboundLocal, (),
        [⟨["git", "log", "-1", "--date=iso", "--format=%ad", "deadbeef"], ""⟩])
    ∧ Err.unboundLocal ≠ Err.notFound :=
  ⟨(C6_checkpoint_model_amended stagingCexA () "f.ipynb" "aaaa").2.1
      "2021-01-01 00:00:00 +0000" () _ (by decide) rfl,
    ((C6_checkpoint_model_amended failA () "f.ipynb" "deadbeef").2.2
      Err.unboundLocal () _ (by decide) rfl).1,
    ((C6_checkpoint_model_amended failA () "f.ipynb" "deadbeef").2.2
      Err.unboundLocal () _ (by decide) rfl).2⟩

/-- C3 amended: when the diff against the last snapshot is blank,
`create_checkpoint` issues only the three read commands (probe, diff, date
query) — no `add`, no `commit`, so no new snapshot — leaves the world state
where it was, and returns the record of the latest snapshot under the
symbolic id `"HEAD"`; calling it again from the resulting state therefore
returns the very same record. -/
theorem C3_unchanged_idempotent {σ : Type} (A : GitCheckpoints σ) (s : σ)
    (path : String) (o1 d o3 : String)
    (h1 : A.git s (strArgs "log -1 --oneline") (some path) true
      = (.ok o1, s, [builtCmd A (strArgs "log -1 --oneline") (some path) true]))
    (h2 : A.git s (strArgs "diff") (some path) true
      = (.ok d, s, [builtCmd A (strArgs "diff") (some path) true]))
    (hd : pyStrip d = "")
    (h3 : A.git s ["log", "-1", "--date=iso", "--format=%ad", "HEAD"] (some path) false
      = (.ok o3, s,
        [builtCmd A ["log", "-1", "--date=iso", "--format=%ad", "HEAD"] (some path) false])) :
    A.create_checkpoint s path
      = (.ok ⟨"HEAD", A.parse_date o3⟩, s,
        [builtCmd A (strArgs "log -1 --oneline") (some path) true,
         builtCmd A (strArgs "diff") (some path) true,
         builtCmd A ["log", "-1", "--date=iso", "--format=%ad", "HEAD"] (some path) false])
    ∧ (∀ c ∈ (A.create_checkpoint s path).2.2,
        c.argv.getD 1 "" ≠ "add" ∧ c.argv.getD 1 "" ≠ "commit")
    ∧ A.create_checkpoint ((A.create_checkpoint s path).2.1) path
      = A.create_checkpoint s path := by
  have key : A.create_checkpoint s path
      = (.ok ⟨"HEAD", A.parse_date o3⟩, s,
        [builtCmd A (strArgs "log -1 --oneline") (some path) true,
         builtCmd A (strArgs "diff") (some path) true,
         builtCmd A ["log", "-1", "--date=iso", "--format=%ad", "HEAD"] (some path) false]) := by
    unfold GitCheckpoints.create_checkpoint GitCheckpoints.in_git
    rw [h1]
    dsimp only
    rw [h2]
    dsimp only
    rw [if_pos hd]
    unfold GitCheckpoints.checkpoint_model
    rw [if_neg (by decide : ¬ ("HEAD" : String) = "--")]
    rw [h3]
    rfl
  refine ⟨key, ?_, ?_⟩
  · rw [key]
    intro c hc
    simp only [List.mem_cons, List.not_mem_nil, or_false] at hc
    rcases hc with hc | hc | hc <;> subst hc
    · exact ⟨(by decide : ("log" : String) ≠ "add"),
        (by decide : ("log" : String) ≠ "commit")⟩
    · exact ⟨(by decide : ("diff" : String) ≠ "add"),
        (by decide : ("diff" : String) ≠ "commit")⟩
    · exact ⟨(by decide : ("log" : String) ≠ "add"),
        (by decide : ("log" : String) ≠ "commit")⟩
  · rw [key]
    exact key

/-- C3 witness: in the `commitEnv` world at phase 1 (nothing to commit),
`create_checkpoint` returns the `"HEAD"` record, leaves the world in phase
1, and a repeated call from the resulting state returns the same record. -/
theorem C3_unchanged_idempotent_witness :
    commitCexA.create_checkpoint 1 "f.ipynb"
      = (.ok ⟨"HEAD", ⟨42⟩⟩, 1,
        [builtCmd commitCexA (strArgs "log -1 --oneline") (some "f.ipynb") true,
         builtCmd commitCexA (strArgs "diff") (some "f.ipynb") true,
         builtCmd commitCexA ["log", "-1", "--date=iso", "--format=%ad", "HEAD"]
           (some "f.ipynb") false])
    ∧ commitCexA.create_checkpoint
        ((commitCexA.create_checkpoint 1 "f.ipynb").2.1) "f.ipynb"
      = commitCexA.create_checkpoint 1 "f.ipynb" :=
  ⟨(C3_unchanged_idempotent commitCexA 1 "f.ipynb"
      "2021-02-03 04:05:06 +0000" "" "2021-02-03 04:05:06 +0000"
      rfl rfl rfl rfl).1,
    (C3_unchanged_idempotent commitCexA 1 "f.ipynb"
      "2021-02-03 04:05:06 +0000" "" "2021-02-03 04:05:06 +0000"
      rfl rfl rfl rfl).2.2⟩

/-- C7: in staging-only mode, `create_checkpoint` on a tracked, changed
file issues exactly the probe, the diff and the `git add` — in particular
no `git commit`, so no durable snapshot — and returns the sentinel record
stamped with the current time. -/
theorem C7_staging_only_create {σ : Type} (A : GitCheckpoints σ) (s : σ)
    (path : String) (hmode : A.create_commits = false)
    (o1 d oa : String) (s1 s2 s3 : σ)
    (h1 : A.git s (strArgs "log -1 --oneline") (some path) true
      = (.ok o1, s1, [builtCmd A (strArgs "log -1 --oneline") (some path) true]))
    (h2 : A.git s1 (strArgs "diff") (some path) true
      = (.ok d, s2, [builtCmd A (strArgs "diff") (some path) true]))
    (hd : pyStrip d ≠ "")
    (h3 : A.git s2 (strArgs "add") (some path) true
      = (.ok oa, s3, [builtCmd A (strArgs "add") (some path) true])) :
    A.create_checkpoint s path
      = (.ok ⟨"--", A.utcnow s3⟩, s3,
        [builtCmd A (strArgs "log -1 --oneline") (some path) true,
         builtCmd A (strArgs "diff") (some path) true,
         builtCmd A (strArgs "add") (some path) true])
    ∧ (∀ c ∈ (A.create_checkpoint s path).2.2, c.argv.getD 1 "" ≠ "commit") := by
  have key : A.create_checkpoint s path
      = (.ok ⟨"--", A.utcnow s3⟩, s3,
        [builtCmd A (strArgs "log -1 --oneline") (some path) true,
         builtCmd A (strArgs "diff") (some path) true,
         builtCmd A (strArgs "add") (some path) true]) := by
    unfold GitCheckpoints.create_checkpoint GitCheckpoints.in_git
    rw [h1]
    dsimp only
    rw [h2]
    dsimp only
    rw [if_neg hd]
    rw [h3]
    dsimp only
    rw [if_pos hmode]
    unfold GitCheckpoints.checkpoint_model
    rw [if_pos rfl]
    rfl
  refine ⟨key, ?_⟩
  rw [key]
  intro c hc
  simp only [List.mem_cons, List.not_mem_nil, or_false] at hc
  rcases hc with hc | hc | hc <;> subst hc
  · exact (by decide : ("log" : String) ≠ "commit")
  · exact (by decide : ("diff" : String) ≠ "commit")
  · exact (by decide : ("add" : String) ≠ "commit")

/-- C7 witness: in `dirtyA` the staging-only `create_checkpoint` returns
the sentinel record with the current time, having issued probe, diff and
add only. -/
theorem C7_staging_only_create_witness :
    dirtyA.create_checkpoint () "f.ipynb"
      = (.ok ⟨"--", ⟨100⟩⟩, (),
        [builtCmd dirtyA (strArgs "log -1 --oneline") (some "f.ipynb") true,
         builtCmd dirtyA (strArgs "diff") (some "f.ipynb") true,
         builtCmd dirtyA (strArgs "add") (some "f.ipynb") true]) :=
  (C7_staging_only_create dirtyA () "f.ipynb" rfl "" "+ x" "" () () ()
    rfl rfl (by decide) rfl).1

/-- C5: in staging-only mode, provided the page of hashes contains no
literal `"--"` token (git prints one hash per line), the listing starts
with the sentinel record exactly when `git status -s` on the file prints
anything — the code's probe for "working content differs from the last
durable snapshot". -/
theorem C5_sentinel_iff_status {σ : Type} (A : GitCheckpoints σ) (s : σ)
    (path : String) (limit : Option Int) (out st : String) (s1 s2 : σ)
    (hmode : A.create_commits = false)
    (hlog : A.git s ["log", "--format=%H", "-" ++ toString (A.effLimit limit)]
        (some path) true
      = (.ok out, s1,
        [builtCmd A ["log", "--format=%H", "-" ++ toString (A.effLimit limit)]
          (some path) true]))
    (hsent : "--" ∉ pySplitWs out)
    (hst : A.git s1 ["status", "-s"] (some path) true
      = (.ok st, s2, [builtCmd A ["status", "-s"] (some path) true]))
    (l : List CheckpointRecord) (s' : σ) (t : List GitCmd)
    (hrun : A.list_checkpoints s path limit = (.ok l, s', t)) :
    (l.head?.map CheckpointRecord.id = some "--") ↔ pyStrip st ≠ "" := by
  unfold GitCheckpoints.list_checkpoints at hrun
  rw [hlog] at hrun
  dsimp only at hrun
  rw [if_pos hmode, hst] at hrun
  dsimp only at hrun
  by_cases hc : pyStrip st = ""
  · rw [if_neg (fun h => h hc)] at hrun
    rcases hm : A.models path (pySplitWs out) s2 with ⟨er3, s3, t3⟩
    rw [hm] at hrun
    cases er3 with
    | error e => exact absurd (congrArg Prod.fst hrun) (by simp)
    | ok rs =>
      dsimp only at hrun
      have hl : rs = l := Except.ok.inj (congrArg Prod.fst hrun)
      subst hl
      have hids := models_ok_ids A path (pySplitWs out) s2 rs s3 t3 hm
      refine iff_of_false ?_ (fun h => h hc)
      intro hhead
      cases rs with
      | nil => simp at hhead
      | cons r rest =>
        simp only [List.head?_cons, Option.map_some'] at hhead
        have hr : r.id = "--" := Option.some.inj hhead
        rw [List.map_cons] at hids
        rw [← hids, hr] at hsent
        exact hsent (List.mem_cons_self _ _)
  · rw [if_pos hc] at hrun
    rcases hm : A.models path ("--" :: pySplitWs out) s2 with ⟨er3, s3, t3⟩
    rw [hm] at hrun
    cases er3 with
    | error e => exact absurd (congrArg Prod.fst hrun) (by simp)
    | ok rs =>
      dsimp only at hrun
      have hl : rs = l := Except.ok.inj (congrArg Prod.fst hrun)
      subst hl
      have hids := models_ok_ids A path ("--" :: pySplitWs out) s2 rs s3 t3 hm
      cases rs with
      | nil => simp at hids
      | cons r rest =>
        rw [List.map_cons] at hids
        have hr : r.id = "--" := (List.cons.inj hids).1
        simp [hr, hc]

/-- C5 witness: in the staging-only `stagingEnv` world (staged change
present) the first listed record is the sentinel, matching the nonempty
status output. -/
theorem C5_sentinel_iff_status_witness :
    (([(⟨"--", ⟨100⟩⟩ : CheckpointRecord), ⟨"aaaa", ⟨50⟩⟩].head?.map
        CheckpointRecord.id = some "--") ↔ pyStrip " M f.ipynb" ≠ "") :=
  C5_sentinel_iff_status stagingCexA () "f.ipynb" none "aaaa" " M f.ipynb"
    () () rfl rfl (by decide) rfl
    [⟨"--", ⟨100⟩⟩, ⟨"aaaa", ⟨50⟩⟩] ()
    [⟨["git", "log", "--format=%H", "-1", "f.ipynb"], ""⟩,
     ⟨["git", "status", "-s", "f.ipynb"], ""⟩,
     ⟨["git", "log", "-1", "--date=iso", "--format=%ad", "aaaa"], ""⟩]
    rfl

/-- C1 amended: provided git honours the page size (the log output splits
into at most `limit` hashes — a guarantee of the external tool), the
listing has at most `limit` records in durable-commit mode and at most
`limit + 1` in staging-only mode, where the sentinel may be prepended on
top of a full page; the records carry exactly the git-printed hashes in
git's own order — newest first, by the `git log` contract — with at most
the sentinel prepended; and in durable mode a full page (as git prints
once `max_checkpoints + k` checkpoints exist) yields exactly `limit`
records. -/
theorem C1_list_length_bound {σ : Type} (A : GitCheckpoints σ) (s : σ)
    (path : String) (limit : Option Int) (out : String) (s1 : σ)
    (l : List CheckpointRecord) (s' : σ) (t : List GitCmd)
    (hlog : A.git s ["log", "--format=%H", "-" ++ toString (A.effLimit limit)]
        (some path) true
      = (.ok out, s1,
        [builtCmd A ["log", "--format=%H", "-" ++ toString (A.effLimit limit)]
          (some path) true]))
    (hlen : (pySplitWs out).length ≤ (A.effLimit limit).toNat)
    (hrun : A.list_checkpoints s path limit = (.ok l, s', t)) :
    (l.length ≤ (A.effLimit limit).toNat
      + (if A.create_commits = false then 1 else 0))
    ∧ (l.map CheckpointRecord.id = pySplitWs out
        ∨ l.map CheckpointRecord.id = "--" :: pySplitWs out)
    ∧ (A.create_commits = true → l.map CheckpointRecord.id = pySplitWs out)
    ∧ (A.create_commits = true →
        (pySplitWs out).length = (A.effLimit limit).toNat →
        l.length = (A.effLimit limit).toNat) := by
  unfold GitCheckpoints.list_checkpoints at hrun
  rw [hlog] at hrun
  dsimp only at hrun
  split at hrun
  case isTrue hmode =>
    rcases hst : A.git s1 ["status", "-s"] (some path) true with ⟨er2, s2, t2⟩
    rw [hst] at hrun
    cases er2 with
    | error e => exact absurd (congrArg Prod.fst hrun) (by simp)
    | ok st =>
      dsimp only at hrun
      rcases hm : A.models path
          (if pyStrip st ≠ "" then "--" :: pySplitWs out else pySplitWs out)
          s2 with ⟨er3, s3, t3⟩
      rw [hm] at hrun
      cases er3 with
      | error e => exact absurd (congrArg Prod.fst hrun) (by simp)
      | ok rs =>
        dsimp only at hrun
        have hl : rs = l := Except.ok.inj (congrArg Prod.fst hrun)
        subst hl
        have hids := models_ok_ids A path
          (if pyStrip st ≠ "" then "--" :: pySplitWs out else pySplitWs out)
          s2 rs s3 t3 hm
        have hlen2 : rs.length
            = (if pyStrip st ≠ "" then "--" :: pySplitWs out
                else pySplitWs out).length := by
          rw [← List.length_map rs CheckpointRecord.id, hids]
        refine ⟨?_, ?_, ?_, ?_⟩
        · rw [if_pos hmode]
          by_cases hstc : pyStrip st ≠ ""
          · rw [if_pos hstc] at hlen2
            rw [List.length_cons] at hlen2
            omega
          · rw [if_neg hstc] at hlen2
            omega
        · by_cases hstc : pyStrip st ≠ ""
          · rw [if_pos hstc] at hids
            exact Or.inr hids
          · rw [if_neg hstc] at hids
            exact Or.inl hids
        · intro h
          rw [hmode] at h
          exact absurd h (by decide)
        · intro h
          rw [hmode] at h
          exact absurd h (by decide)
  case isFalse hmode =>
    rcases hm : A.models path (pySplitWs out) s1 with ⟨er3, s3, t3⟩
    rw [hm] at hrun
    cases er3 with
    | error e => exact absurd (congrArg Prod.fst hrun) (by simp)
    | ok rs =>
      dsimp only at hrun
      have hl : rs = l := Except.ok.inj (congrArg Prod.fst hrun)
      subst hl
      have hids := models_ok_ids A path (pySplitWs out) s1 rs s3 t3 hm
      have hlen2 : rs.length = (pySplitWs out).length := by
        rw [← List.length_map rs CheckpointRecord.id, hids]
      refine ⟨?_, Or.inl hids, fun _ => hids, fun _ hfull => ?_⟩
      · rw [if_neg hmode]
        omega
      · rw [hlen2, hfull]

/-- C1 witness: in the durable-mode `pageEnv` world the full page of two
hashes yields exactly `max_checkpoints = 2` records, within the bound,
carrying the git-printed hashes in git's order. -/
theorem C1_list_length_bound_witness :
    ([(⟨"h1", ⟨50⟩⟩ : CheckpointRecord), ⟨"h2", ⟨50⟩⟩].length
      ≤ (pageA.effLimit none).toNat
        + (if pageA.create_commits = false then 1 else 0))
    ∧ [(⟨"h1", ⟨50⟩⟩ : CheckpointRecord), ⟨"h2", ⟨50⟩⟩].map CheckpointRecord.id
      = pySplitWs "h1 h2"
    ∧ [(⟨"h1", ⟨50⟩⟩ : CheckpointRecord), ⟨"h2", ⟨50⟩⟩].length
      = (pageA.effLimit none).toNat :=
  ⟨(C1_list_length_bound pageA () "f.ipynb" none "h1 h2" ()
      [⟨"h1", ⟨50⟩⟩, ⟨"h2", ⟨50⟩⟩] ()
      [⟨["git", "log", "--format=%H", "-2", "f.ipynb"], ""⟩,
       ⟨["git", "log", "-1", "--date=iso", "--format=%ad", "h1"], ""⟩,
       ⟨["git", "log", "-1", "--date=iso", "--format=%ad", "h2"], ""⟩]
      rfl (by decide) rfl).1,
    (C1_list_length_bound pageA () "f.ipynb" none "h1 h2" ()
      [⟨"h1", ⟨50⟩⟩, ⟨"h2", ⟨50⟩⟩] ()
      [⟨["git", "log", "--format=%H", "-2", "f.ipynb"], ""⟩,
       ⟨["git", "log", "-1", "--date=iso", "--format=%ad", "h1"], ""⟩,
       ⟨["git", "log", "-1", "--date=iso", "--format=%ad", "h2"], ""⟩]
      rfl (by decide) rfl).2.2.1 rfl,
    (C1_list_length_bound pageA () "f.ipynb" none "h1 h2" ()
      [⟨"h1", ⟨50⟩⟩, ⟨"h2", ⟨50⟩⟩] ()
      [⟨["git", "log", "--format=%H", "-2", "f.ipynb"], ""⟩,
       ⟨["git", "log", "-1", "--date=iso", "--format=%ad", "h1"], ""⟩,
       ⟨["git", "log", "-1", "--date=iso", "--format=%ad", "h2"], ""⟩]
      rfl (by decide) rfl).2.2.2 rfl (by decide)⟩

/-- C9 witness: renaming `"a/b.ipynb"` behaves identically for two
different new paths, and the single command issued (`git rm b.ipynb` in
directory `a`) is not a commit. -/
theorem C9_rename_frame_witness :
    failA.rename_checkpoint () (some "x") "a/b.ipynb" "c.ipynb"
      = failA.rename_checkpoint () (some "x") "a/b.ipynb" "d.ipynb"
    ∧ (⟨["git", "rm", "b.ipynb"], "a"⟩ : GitCmd).argv.getD 1 "" ≠ "commit" :=
  ⟨(C9_rename_frame failA () (some "x") "a/b.ipynb" "c.ipynb" "d.ipynb").1,
    (C9_rename_frame failA () (some "x") "a/b.ipynb" "c.ipynb" "d.ipynb").2.2.1
      ⟨["git", "rm", "b.ipynb"], "a"⟩ (by decide)⟩
